import Mathlib

/-!
Verification development for the set-expression-to-logical-plan translator
(`datafusion/sql/src/set_expr.rs`) and the `character_length` string kernel
(`datafusion/functions/src/unicode/character_length.rs`).

The Rust code is shallowly embedded below: pure functions become Lean
functions, `Result<T>` becomes `Except DataFusionError T`, and the external
collaborators (sub-planners and logical-plan builder operations) become
fields of a `SqlToRel` record of functions.
-/

/-- A resolved source span, as converted by `Span::try_from_sqlparser_span`.
Absence of a span is represented by `Option.none`. -/
structure Span where
  lo : Nat
  hi : Nat
deriving DecidableEq, Repr

/-- The three set operators of `sqlparser::ast::SetOperator`. -/
inductive SetOperator where
  | union
  | intersect
  | «except»
deriving DecidableEq, Repr

/-- The six set quantifiers of `sqlparser::ast::SetQuantifier`. -/
inductive SetQuantifier where
  | all
  | distinct
  | none
  | byName
  | allByName
  | distinctByName
deriving DecidableEq, Repr

/-- Modelled from the spec: the `Display` rendering of a `SetOperator`
(from the sqlparser crate, outside the provided sources); Scenario B renders
`Union` in the arity-mismatch message and Scenario C renders `Intersect` in
the not-implemented message. -/
def SetOperator.render : SetOperator → String
  | SetOperator.union => "Union"
  | SetOperator.intersect => "Intersect"
  | SetOperator.except => "Except"

/-- Modelled from the spec: the `Display` rendering of a `SetQuantifier`
(from the sqlparser crate, outside the provided sources); Scenario C renders
the quantifier `ByName` as `ByName` in the not-implemented message. -/
def SetQuantifier.render : SetQuantifier → String
  | SetQuantifier.all => "All"
  | SetQuantifier.distinct => "Distinct"
  | SetQuantifier.none => "None"
  | SetQuantifier.byName => "ByName"
  | SetQuantifier.allByName => "AllByName"
  | SetQuantifier.distinctByName => "DistinctByName"

/-- The set-expression AST (`sqlparser::ast::SetExpr`). Leaf payloads
(`select` clause, `values` rows) are opaque at this layer and are modelled by
a `Nat` tag handed to the external sub-planner. Every node carries the
optional span that `set_expr.span()` resolves to. The catch-all arm of the
Rust `match` is the spec's `Unsupported(description)` variant, carrying the
rendering of the unsupported expression. -/
inductive SetExpr where
  | select (s : Nat) (sp : Option Span)
  | values (v : Nat) (sp : Option Span)
  | setOperation (op : SetOperator) (left : SetExpr) (right : SetExpr)
      (set_quantifier : SetQuantifier) (sp : Option Span)
  | query (q : SetExpr) (sp : Option Span)
  | unsupported (description : String) (sp : Option Span)

/-- The node's `span()` composed with `Span::try_from_sqlparser_span`: the
optional resolved span of a node. -/
def SetExpr.span : SetExpr → Option Span
  | SetExpr.select _ sp => sp
  | SetExpr.values _ sp => sp
  | SetExpr.setOperation _ _ _ _ sp => sp
  | SetExpr.query _ sp => sp
  | SetExpr.unsupported _ sp => sp

/-- The ordered field sequence of a plan's schema. Field contents are opaque
here; only names/identities and the count matter at this layer. -/
structure Schema where
  fields : List String
deriving DecidableEq, Repr

/-- A logical plan, opaque except for its output schema
(`LogicalPlan::schema`). -/
structure LogicalPlan where
  schema : Schema
deriving DecidableEq, Repr

/-- A structured diagnostic: primary message and span plus ordered notes. -/
structure Diagnostic where
  message : String
  span : Option Span
  notes : List (String × Option Span)
deriving DecidableEq, Repr

/-- `Diagnostic::new_error`. -/
def Diagnostic.new_error (message : String) (span : Option Span) : Diagnostic :=
  { message := message, span := span, notes := [] }

/-- `Diagnostic::with_note`: appends a note, preserving order. -/
def Diagnostic.with_note (d : Diagnostic) (message : String) (span : Option Span) :
    Diagnostic :=
  { d with notes := d.notes ++ [(message, span)] }

/-- The error type of translation (the spec's `PlanError`):
`NotImplemented(text)`, `Plan(message, optional diagnostic)`, and
`Collection(errors)`. `recursionLimit` is modelled from the spec: the
distinct "recursion limit" error of the depth guard (§4.1), whose concrete
shape lives outside the provided sources. -/
inductive DataFusionError where
  | notImplemented (msg : String)
  | plan (msg : String) (diag : Option Diagnostic)
  | collection (errs : List DataFusionError)
  | recursionLimit

/-- `datafusion_common::Result`. -/
abbrev DFResult (α : Type) : Type := Except DataFusionError α

/-- Modelled from the spec: the recursion-depth bookkeeping threaded through
`PlannerContext` (§4.1). `PlannerContext` itself is declared in
`planner.rs`, outside the provided sources; per the spec it carries an
optional maximum-depth ceiling and the current depth counter. -/
structure PlannerContext where
  depth : Nat
  max_depth : Option Nat

/-- The `SqlToRel` planner together with its external collaborators: the two
leaf sub-planners (`select_to_plan`, `sql_values_to_plan`) and the
`LogicalPlanBuilder` combination operations, all of which may fail and whose
failures are propagated unchanged. -/
structure SqlToRel where
  select_to_plan : Nat → PlannerContext → DFResult LogicalPlan
  sql_values_to_plan : Nat → PlannerContext → DFResult LogicalPlan
  union : LogicalPlan → LogicalPlan → DFResult LogicalPlan
  union_by_name : LogicalPlan → LogicalPlan → DFResult LogicalPlan
  union_distinct : LogicalPlan → LogicalPlan → DFResult LogicalPlan
  union_by_name_distinct : LogicalPlan → LogicalPlan → DFResult LogicalPlan
  intersect : LogicalPlan → LogicalPlan → Bool → DFResult LogicalPlan
  «except» : LogicalPlan → LogicalPlan → Bool → DFResult LogicalPlan

/-- `SqlToRel::is_union_all`: classifies a quantifier as duplicate-keeping.
Total over the six quantifiers and always succeeds. -/
def is_union_all (set_quantifier : SetQuantifier) : DFResult Bool :=
  match set_quantifier with
  | SetQuantifier.all | SetQuantifier.allByName => Except.ok true
  | SetQuantifier.distinct | SetQuantifier.byName
  | SetQuantifier.distinctByName | SetQuantifier.none => Except.ok false

/-- `SqlToRel::validate_set_expr_num_of_columns`: succeeds when the two
schemas have equal field counts, otherwise builds the arity-mismatch
diagnostic and returns the `Plan` error. -/
def validate_set_expr_num_of_columns (op : SetOperator)
    (left_span right_span : Option Span)
    (left_plan right_plan : LogicalPlan)
    (set_expr_span : Option Span) : DFResult Unit :=
  if left_plan.schema.fields.length == right_plan.schema.fields.length then
    Except.ok ()
  else
    let diagnostic :=
      ((Diagnostic.new_error
          (op.render ++ " queries have different number of columns")
          set_expr_span).with_note
        ("this side has " ++ toString left_plan.schema.fields.length ++ " fields")
        left_span).with_note
        ("this side has " ++ toString right_plan.schema.fields.length ++ " fields")
        right_span
    Except.error (DataFusionError.plan
      (op.render ++ " queries have different number of columns")
      (Option.some diagnostic))

/-- `SqlToRel::set_operation_to_plan`: the operator-times-quantifier
dispatch table; unlisted pairs fail with `NotImplemented`. -/
def set_operation_to_plan (ctx : SqlToRel) (op : SetOperator)
    (left_plan right_plan : LogicalPlan) (set_quantifier : SetQuantifier) :
    DFResult LogicalPlan :=
  match op, set_quantifier with
  | SetOperator.union, SetQuantifier.all =>
      ctx.union left_plan right_plan
  | SetOperator.union, SetQuantifier.allByName =>
      ctx.union_by_name left_plan right_plan
  | SetOperator.union, SetQuantifier.distinct
  | SetOperator.union, SetQuantifier.none =>
      ctx.union_distinct left_plan right_plan
  | SetOperator.union, SetQuantifier.byName
  | SetOperator.union, SetQuantifier.distinctByName =>
      ctx.union_by_name_distinct left_plan right_plan
  | SetOperator.intersect, SetQuantifier.all =>
      ctx.intersect left_plan right_plan true
  | SetOperator.intersect, SetQuantifier.distinct
  | SetOperator.intersect, SetQuantifier.none =>
      ctx.intersect left_plan right_plan false
  | SetOperator.except, SetQuantifier.all =>
      ctx.except left_plan right_plan true
  | SetOperator.except, SetQuantifier.distinct
  | SetOperator.except, SetQuantifier.none =>
      ctx.except left_plan right_plan false
  | op, quantifier =>
      Except.error (DataFusionError.notImplemented
        (op.render ++ " " ++ quantifier.render ++ " not implemented"))

/-- Modelled from the spec: the recursion-depth guard of the `Query` path
(§4.1). `query_to_plan` is declared in `query.rs`, outside the provided
sources; per the spec the counter is incremented on entry to the recursive
path and checked against the configured ceiling, failing fast with the
distinct recursion-limit error when exceeded. -/
def query_depth_guard (planner_context : PlannerContext) :
    DFResult PlannerContext :=
  let planner_context := { planner_context with depth := planner_context.depth + 1 }
  match planner_context.max_depth with
  | Option.some ceiling =>
      if ceiling < planner_context.depth then
        Except.error DataFusionError.recursionLimit
      else
        Except.ok planner_context
  | Option.none => Except.ok planner_context

/-- `SqlToRel::set_expr_to_plan`: the recursive translator. Both children of
a `SetOperation` are translated unconditionally; both errors are merged into
a `Collection`, a single error propagates unchanged; arity validation is run
unless the quantifier is `ByName` or `AllByName`; then the dispatcher builds
the combined plan. The `Query` arm recurses through the depth guard
(modelled from the spec, see `query_depth_guard`). -/
def set_expr_to_plan (ctx : SqlToRel) :
    SetExpr → PlannerContext → DFResult LogicalPlan
  | SetExpr.select s _, planner_context =>
      ctx.select_to_plan s planner_context
  | SetExpr.values v _, planner_context =>
      ctx.sql_values_to_plan v planner_context
  | SetExpr.setOperation op left right set_quantifier set_expr_span,
    planner_context =>
      let left_span := left.span
      let right_span := right.span
      let left_plan := set_expr_to_plan ctx left planner_context
      let right_plan := set_expr_to_plan ctx right planner_context
      match left_plan, right_plan with
      | Except.ok left_plan, Except.ok right_plan =>
          if !(set_quantifier == SetQuantifier.byName
              || set_quantifier == SetQuantifier.allByName) then
            match validate_set_expr_num_of_columns op left_span right_span
                left_plan right_plan set_expr_span with
            | Except.error e => Except.error e
            | Except.ok _ =>
                set_operation_to_plan ctx op left_plan right_plan set_quantifier
          else
            set_operation_to_plan ctx op left_plan right_plan set_quantifier
      | Except.error left_err, Except.error right_err =>
          Except.error (DataFusionError.collection [left_err, right_err])
      | Except.error err, Except.ok _ => Except.error err
      | Except.ok _, Except.error err => Except.error err
  | SetExpr.query q _, planner_context =>
      match query_depth_guard planner_context with
      | Except.error e => Except.error e
      | Except.ok planner_context => set_expr_to_plan ctx q planner_context
  | SetExpr.unsupported description _, _ =>
      Except.error (DataFusionError.notImplemented
        ("Query " ++ description ++ " not implemented yet"))

/-!
Embedding of `character_length_general`
(`datafusion/functions/src/unicode/character_length.rs`). A string is a list
of Unicode code points; `byteLen` is its UTF-8 encoded byte length
(`str::len`), `List.length` its `chars().count()`. A string array is a list
of optional strings (`Option.none` is a null slot); the produced primitive
array carries the values and the cloned null buffer. The native integer
width (`i32`/`i64`) is modelled by `Nat`: offsets bound string lengths far
below either signed range, so the `usize_as` cast is the identity.
-/

/-- The number of bytes of the UTF-8 encoding of one code point. -/
def utf8CharLen (c : Nat) : Nat :=
  if c < 0x80 then 1
  else if c < 0x800 then 2
  else if c < 0x10000 then 3
  else 4

/-- `str::len`: the UTF-8 encoded byte length of a string. -/
def byteLen (s : List Nat) : Nat :=
  (s.map utf8CharLen).sum

/-- `str::is_ascii`: every code point below 128. -/
def strIsAscii (s : List Nat) : Bool :=
  s.all (fun c => c < 128)

/-- A string array: optional (nullable) string elements. -/
structure StringArray where
  data : List (Option (List Nat))

/-- `Array::len`. -/
def StringArray.len (a : StringArray) : Nat :=
  a.data.length

/-- `Array::null_count`. -/
def StringArray.null_count (a : StringArray) : Nat :=
  (a.data.filter (fun o => o.isNone)).length

/-- `StringArrayType::is_ascii`: the whole values buffer is ASCII (null
slots hold empty data). -/
def StringArray.is_ascii (a : StringArray) : Bool :=
  a.data.all (fun o => strIsAscii (o.getD []))

/-- `Array::is_null`. -/
def StringArray.is_null (a : StringArray) (i : Nat) : Bool :=
  (a.data.getD i Option.none).isNone

/-- `StringArrayType::value` at index `i` (null slots read as empty). -/
def StringArray.value (a : StringArray) (i : Nat) : List Nat :=
  (a.data.getD i Option.none).getD []

/-- `Array::nulls().cloned()`: the validity buffer (`true` = valid), absent
when the array has no null buffer. -/
def StringArray.nulls (a : StringArray) : Option (List Bool) :=
  if a.null_count == 0 then Option.none
  else Option.some (a.data.map (fun o => o.isSome))

/-- The produced `PrimitiveArray<T>`: native values plus optional validity
buffer. -/
structure PrimitiveArray where
  values : List Nat
  nulls : Option (List Bool)
deriving DecidableEq, Repr

/-- `PrimitiveArray::len`. -/
def PrimitiveArray.len (p : PrimitiveArray) : Nat :=
  p.values.length

/-- `PrimitiveArray::is_null`. -/
def PrimitiveArray.is_null (p : PrimitiveArray) (i : Nat) : Bool :=
  match p.nulls with
  | Option.none => false
  | Option.some v => !(v.getD i true)

/-- `PrimitiveArray::value` at index `i`. -/
def PrimitiveArray.value (p : PrimitiveArray) (i : Nat) : Nat :=
  p.values.getD i 0

/-- `character_length_general`: the four branches of the kernel — null-free
or nullable crossed with array-wide-ASCII fast path or per-element check;
ASCII strings are measured by byte length, others by decoded char count;
null slots yield `T::default_value()` (zero) and the input null buffer is
cloned onto the output. -/
def character_length_general (array : StringArray) : PrimitiveArray :=
  let is_array_ascii_only := array.is_ascii
  if array.null_count == 0 then
    if is_array_ascii_only then
      { values := (List.range array.len).map (fun i => byteLen (array.value i)),
        nulls := Option.none }
    else
      { values := (List.range array.len).map (fun i =>
          let value := array.value i
          if strIsAscii value then byteLen value else value.length),
        nulls := Option.none }
  else if is_array_ascii_only then
    { values := (List.range array.len).map (fun i =>
        if array.is_null i then 0 else byteLen (array.value i)),
      nulls := array.nulls }
  else
    { values := (List.range array.len).map (fun i =>
        if array.is_null i then 0
        else
          let value := array.value i
          if strIsAscii value then byteLen value else value.length),
      nulls := array.nulls }

/-- Naive specification of the kernel, following the documented contract
("counts UTF-8 code points to count the number of characters"): every
non-null element maps to its decoded character count, null slots map to the
default value zero, and the null buffer is carried over unchanged. -/
def character_length_spec (a : StringArray) : PrimitiveArray :=
  { values := a.data.map (fun o => (o.getD []).length),
    nulls := a.nulls }

/-!
Concrete fixtures used by counterexamples and witnesses. The test context's
sub-planner fails on the payloads `0` and `1` (with distinct errors) and
otherwise returns a plan whose schema has as many fields as the payload; the
builder operations succeed, returning the left plan.
-/

/-- A plan whose schema has `n` fields. -/
def planWithFields (n : Nat) : LogicalPlan :=
  { schema := { fields := List.replicate n "f" } }

/-- A concrete planner whose collaborators are simple total functions. -/
def testCtx : SqlToRel where
  select_to_plan := fun s _ =>
    if s == 0 then Except.error (DataFusionError.notImplemented "a")
    else if s == 1 then Except.error (DataFusionError.notImplemented "b")
    else Except.ok (planWithFields s)
  sql_values_to_plan := fun v _ => Except.ok (planWithFields v)
  union := fun l _ => Except.ok l
  union_by_name := fun l _ => Except.ok l
  union_distinct := fun l _ => Except.ok l
  union_by_name_distinct := fun l _ => Except.ok l
  intersect := fun l _ _ => Except.ok l
  «except» := fun l _ _ => Except.ok l

/-- A concrete context with no depth ceiling. -/
def testPc : PlannerContext :=
  { depth := 0, max_depth := Option.none }

/-- C5: `is_union_all` is total over all six `SetQuantifier` values and never
fails: it returns `Ok true` exactly for `All` and `AllByName`, and `Ok false`
for `Distinct`, `ByName`, `DistinctByName`, and `None`. -/
theorem c5_is_union_all_total (q : SetQuantifier) :
    is_union_all q =
      Except.ok (q == SetQuantifier.all || q == SetQuantifier.allByName) := by
  cases q <;> rfl

/-- C6: every set-expression variant outside Select, Values, SetOperation and
Query fails with `NotImplemented` whose message is
`Query {description} not implemented yet`. -/
theorem c6_unsupported_not_implemented (ctx : SqlToRel) (description : String)
    (sp : Option Span) (pc : PlannerContext) :
    set_expr_to_plan ctx (SetExpr.unsupported description sp) pc =
      Except.error (DataFusionError.notImplemented
        ("Query " ++ description ++ " not implemented yet")) := rfl

/-- C8: translation is deterministic — with the collaborators fixed as
functions, two runs of `set_expr_to_plan` on the same input produce
identical results, on success and on failure alike. -/
theorem c8_translation_deterministic (ctx : SqlToRel) (e : SetExpr)
    (pc : PlannerContext) (r1 r2 : DFResult LogicalPlan)
    (h1 : set_expr_to_plan ctx e pc = r1)
    (h2 : set_expr_to_plan ctx e pc = r2) : r1 = r2 :=
  h1.symm.trans h2

/-- Witness for C8 at a concrete input. -/
theorem c8_witness :
    set_expr_to_plan testCtx (SetExpr.select 2 Option.none) testPc =
      Except.ok (planWithFields 2) ∧
    (Except.ok (planWithFields 2) : DFResult LogicalPlan) =
      Except.ok (planWithFields 2) :=
  ⟨rfl, c8_translation_deterministic testCtx (SetExpr.select 2 Option.none)
    testPc _ _ rfl rfl⟩

/-- C3: the operator-times-quantifier dispatcher maps each listed pair to
the named plan-builder operation, and every unlisted pair (Intersect or
Except with any by-name quantifier) fails with
`NotImplemented("{operator} {quantifier} not implemented")`; in particular
Intersect with ByName fails with
`NotImplemented("Intersect ByName not implemented")`. -/
theorem c3_dispatch_table (ctx : SqlToRel) (lp rp : LogicalPlan) :
    (set_operation_to_plan ctx SetOperator.union lp rp SetQuantifier.all =
      ctx.union lp rp) ∧
    (set_operation_to_plan ctx SetOperator.union lp rp SetQuantifier.allByName =
      ctx.union_by_name lp rp) ∧
    (set_operation_to_plan ctx SetOperator.union lp rp SetQuantifier.distinct =
      ctx.union_distinct lp rp) ∧
    (set_operation_to_plan ctx SetOperator.union lp rp SetQuantifier.none =
      ctx.union_distinct lp rp) ∧
    (set_operation_to_plan ctx SetOperator.union lp rp SetQuantifier.byName =
      ctx.union_by_name_distinct lp rp) ∧
    (set_operation_to_plan ctx SetOperator.union lp rp SetQuantifier.distinctByName =
      ctx.union_by_name_distinct lp rp) ∧
    (set_operation_to_plan ctx SetOperator.intersect lp rp SetQuantifier.all =
      ctx.intersect lp rp true) ∧
    (set_operation_to_plan ctx SetOperator.intersect lp rp SetQuantifier.distinct =
      ctx.intersect lp rp false) ∧
    (set_operation_to_plan ctx SetOperator.intersect lp rp SetQuantifier.none =
      ctx.intersect lp rp false) ∧
    (set_operation_to_plan ctx SetOperator.except lp rp SetQuantifier.all =
      ctx.except lp rp true) ∧
    (set_operation_to_plan ctx SetOperator.except lp rp SetQuantifier.distinct =
      ctx.except lp rp false) ∧
    (set_operation_to_plan ctx SetOperator.except lp rp SetQuantifier.none =
      ctx.except lp rp false) ∧
    (set_operation_to_plan ctx SetOperator.intersect lp rp SetQuantifier.byName =
      Except.error (DataFusionError.notImplemented
        "Intersect ByName not implemented")) ∧
    (set_operation_to_plan ctx SetOperator.intersect lp rp SetQuantifier.allByName =
      Except.error (DataFusionError.notImplemented
        "Intersect AllByName not implemented")) ∧
    (set_operation_to_plan ctx SetOperator.intersect lp rp SetQuantifier.distinctByName =
      Except.error (DataFusionError.notImplemented
        "Intersect DistinctByName not implemented")) ∧
    (set_operation_to_plan ctx SetOperator.except lp rp SetQuantifier.byName =
      Except.error (DataFusionError.notImplemented
        "Except ByName not implemented")) ∧
    (set_operation_to_plan ctx SetOperator.except lp rp SetQuantifier.allByName =
      Except.error (DataFusionError.notImplemented
        "Except AllByName not implemented")) ∧
    (set_operation_to_plan ctx SetOperator.except lp rp SetQuantifier.distinctByName =
      Except.error (DataFusionError.notImplemented
        "Except DistinctByName not implemented")) :=
  ⟨rfl, rfl, rfl, rfl, rfl, rfl, rfl, rfl, rfl, rfl, rfl, rfl, rfl, rfl, rfl,
    rfl, rfl, rfl⟩

/-- C4: the arity validator succeeds exactly when the two schemas have equal
field counts, and on a mismatch returns a `Plan` error whose message is
`{operator} queries have different number of columns` and whose diagnostic
has that same primary message at the whole expression's span and the two
field-count notes at the left and right child spans, in that order. -/
theorem c4_arity_validator (op : SetOperator) (ls rs : Option Span)
    (lp rp : LogicalPlan) (sp : Option Span) :
    (validate_set_expr_num_of_columns op ls rs lp rp sp = Except.ok () ↔
      lp.schema.fields.length = rp.schema.fields.length) ∧
    (lp.schema.fields.length ≠ rp.schema.fields.length →
      validate_set_expr_num_of_columns op ls rs lp rp sp =
        Except.error (DataFusionError.plan
          (op.render ++ " queries have different number of columns")
          (Option.some
            { message := op.render ++ " queries have different number of columns"
              span := sp
              notes :=
                [("this side has " ++ toString lp.schema.fields.length ++
                    " fields", ls),
                  ("this side has " ++ toString rp.schema.fields.length ++
                    " fields", rs)] }))) := by
  unfold validate_set_expr_num_of_columns
  by_cases h : lp.schema.fields.length = rp.schema.fields.length
  · simp [h, Diagnostic.new_error, Diagnostic.with_note]
  · simp [h, Diagnostic.new_error, Diagnostic.with_note]

/-- Witness for C4 at schemas with two and three fields. -/
theorem c4_witness :
    (planWithFields 2).schema.fields.length ≠
      (planWithFields 3).schema.fields.length ∧
    validate_set_expr_num_of_columns SetOperator.union Option.none Option.none
      (planWithFields 2) (planWithFields 3) Option.none =
      Except.error (DataFusionError.plan
        "Union queries have different number of columns"
        (Option.some
          { message := "Union queries have different number of columns"
            span := Option.none
            notes := [("this side has 2 fields", Option.none),
              ("this side has 3 fields", Option.none)] })) :=
  ⟨by decide,
    (c4_arity_validator SetOperator.union Option.none Option.none
      (planWithFields 2) (planWithFields 3) Option.none).2 (by decide)⟩

/-- Counterexample to C1 as stated: with quantifier `DistinctByName`, two
successfully translated children whose schemas have 2 and 3 fields DO
produce the arity-mismatch `Plan` error — the code skips the validator only
for `ByName` and `AllByName`. -/
theorem c1_counterexample :
    set_expr_to_plan testCtx
      (SetExpr.setOperation SetOperator.union (SetExpr.select 2 Option.none)
        (SetExpr.select 3 Option.none) SetQuantifier.distinctByName
        Option.none) testPc =
      Except.error (DataFusionError.plan
        "Union queries have different number of columns"
        (Option.some
          { message := "Union queries have different number of columns"
            span := Option.none
            notes := [("this side has 2 fields", Option.none),
              ("this side has 3 fields", Option.none)] })) := rfl

/-- C1 (amended): for quantifier `ByName` or `AllByName` — but not
`DistinctByName` — translation skips the arity validator entirely:
combining two successfully translated children goes straight to the
dispatcher, whatever the two field counts are. -/
theorem c1_by_name_skips_arity_validator (ctx : SqlToRel) (op : SetOperator)
    (l r : SetExpr) (q : SetQuantifier) (sp : Option Span)
    (pc : PlannerContext)
    (hq : q = SetQuantifier.byName ∨ q = SetQuantifier.allByName)
    (lp rp : LogicalPlan)
    (hl : set_expr_to_plan ctx l pc = Except.ok lp)
    (hr : set_expr_to_plan ctx r pc = Except.ok rp) :
    set_expr_to_plan ctx (SetExpr.setOperation op l r q sp) pc =
      set_operation_to_plan ctx op lp rp q := by
  rcases hq with hq | hq <;> subst hq <;>
    simp only [set_expr_to_plan, hl, hr] <;> rfl

/-- Witness for the amended C1: a `ByName` union of children with 2 and 3
fields skips validation and reaches the dispatcher. -/
theorem c1_witness :
    (SetQuantifier.byName = SetQuantifier.byName ∨
      SetQuantifier.byName = SetQuantifier.allByName) ∧
    set_expr_to_plan testCtx
      (SetExpr.setOperation SetOperator.union (SetExpr.select 2 Option.none)
        (SetExpr.select 3 Option.none) SetQuantifier.byName Option.none)
      testPc =
      set_operation_to_plan testCtx SetOperator.union (planWithFields 2)
        (planWithFields 3) SetQuantifier.byName :=
  ⟨Or.inl rfl,
    c1_by_name_skips_arity_validator testCtx SetOperator.union
      (SetExpr.select 2 Option.none) (SetExpr.select 3 Option.none)
      SetQuantifier.byName Option.none testPc (Or.inl rfl)
      (planWithFields 2) (planWithFields 3) rfl rfl⟩

/-- C2: both children of a `SetOperation` are translated and their outcomes
combined: two failures yield `Collection([left_error, right_error])` in that
order, a single failure propagates unchanged, and two successes proceed to
validation (unless by-name) and dispatch. -/
theorem c2_child_error_aggregation (ctx : SqlToRel) (op : SetOperator)
    (l r : SetExpr) (q : SetQuantifier) (sp : Option Span)
    (pc : PlannerContext) :
    (∀ e1 e2, set_expr_to_plan ctx l pc = Except.error e1 →
      set_expr_to_plan ctx r pc = Except.error e2 →
      set_expr_to_plan ctx (SetExpr.setOperation op l r q sp) pc =
        Except.error (DataFusionError.collection [e1, e2])) ∧
    (∀ e1 rp, set_expr_to_plan ctx l pc = Except.error e1 →
      set_expr_to_plan ctx r pc = Except.ok rp →
      set_expr_to_plan ctx (SetExpr.setOperation op l r q sp) pc =
        Except.error e1) ∧
    (∀ lp e2, set_expr_to_plan ctx l pc = Except.ok lp →
      set_expr_to_plan ctx r pc = Except.error e2 →
      set_expr_to_plan ctx (SetExpr.setOperation op l r q sp) pc =
        Except.error e2) ∧
    (∀ lp rp, set_expr_to_plan ctx l pc = Except.ok lp →
      set_expr_to_plan ctx r pc = Except.ok rp →
      set_expr_to_plan ctx (SetExpr.setOperation op l r q sp) pc =
        if !(q == SetQuantifier.byName || q == SetQuantifier.allByName) then
          match validate_set_expr_num_of_columns op l.span r.span lp rp sp with
          | Except.error e => Except.error e
          | Except.ok _ => set_operation_to_plan ctx op lp rp q
        else set_operation_to_plan ctx op lp rp q) := by
  refine ⟨?_, ?_, ?_, ?_⟩ <;> intro x y hx hy <;>
    simp only [set_expr_to_plan, hx, hy]

/-- Witness for C2: all four outcome shapes at concrete inputs — both
children failing (with distinct errors, order preserved), left only,
right only, and both succeeding. -/
theorem c2_witness :
    (set_expr_to_plan testCtx
      (SetExpr.setOperation SetOperator.except (SetExpr.select 0 Option.none)
        (SetExpr.select 1 Option.none) SetQuantifier.distinct Option.none)
      testPc =
      Except.error (DataFusionError.collection
        [DataFusionError.notImplemented "a",
          DataFusionError.notImplemented "b"])) ∧
    (set_expr_to_plan testCtx
      (SetExpr.setOperation SetOperator.except (SetExpr.select 0 Option.none)
        (SetExpr.select 2 Option.none) SetQuantifier.distinct Option.none)
      testPc = Except.error (DataFusionError.notImplemented "a")) ∧
    (set_expr_to_plan testCtx
      (SetExpr.setOperation SetOperator.except (SetExpr.select 2 Option.none)
        (SetExpr.select 1 Option.none) SetQuantifier.distinct Option.none)
      testPc = Except.error (DataFusionError.notImplemented "b")) ∧
    (set_expr_to_plan testCtx
      (SetExpr.setOperation SetOperator.union (SetExpr.select 2 Option.none)
        (SetExpr.select 2 Option.none) SetQuantifier.distinct Option.none)
      testPc = Except.ok (planWithFields 2)) :=
  ⟨(c2_child_error_aggregation testCtx SetOperator.except
      (SetExpr.select 0 Option.none) (SetExpr.select 1 Option.none)
      SetQuantifier.distinct Option.none testPc).1
      (DataFusionError.notImplemented "a") (DataFusionError.notImplemented "b")
      rfl rfl,
    (c2_child_error_aggregation testCtx SetOperator.except
      (SetExpr.select 0 Option.none) (SetExpr.select 2 Option.none)
      SetQuantifier.distinct Option.none testPc).2.1
      (DataFusionError.notImplemented "a") (planWithFields 2) rfl rfl,
    (c2_child_error_aggregation testCtx SetOperator.except
      (SetExpr.select 2 Option.none) (SetExpr.select 1 Option.none)
      SetQuantifier.distinct Option.none testPc).2.2.1
      (planWithFields 2) (DataFusionError.notImplemented "b") rfl rfl,
    (c2_child_error_aggregation testCtx SetOperator.union
      (SetExpr.select 2 Option.none) (SetExpr.select 2 Option.none)
      SetQuantifier.distinct Option.none testPc).2.2.2
      (planWithFields 2) (planWithFields 2) rfl rfl⟩

/-- C7: the recursive Query path threads a depth counter through the planner
context, increments it on entry, and checks it against the configured
ceiling: exceeding the ceiling fails deterministically with the distinct
recursion-limit error; otherwise translation recurses into the inner
expression with the incremented counter (and always recurses when no ceiling
is configured). -/
theorem c7_recursion_depth_guard (ctx : SqlToRel) (q : SetExpr)
    (sp : Option Span) (pc : PlannerContext) :
    (∀ m, pc.max_depth = Option.some m → m < pc.depth + 1 →
      set_expr_to_plan ctx (SetExpr.query q sp) pc =
        Except.error DataFusionError.recursionLimit) ∧
    (∀ m, pc.max_depth = Option.some m → pc.depth + 1 ≤ m →
      set_expr_to_plan ctx (SetExpr.query q sp) pc =
        set_expr_to_plan ctx q { pc with depth := pc.depth + 1 }) ∧
    (pc.max_depth = Option.none →
      set_expr_to_plan ctx (SetExpr.query q sp) pc =
        set_expr_to_plan ctx q { pc with depth := pc.depth + 1 }) := by
  obtain ⟨d, md⟩ := pc
  refine ⟨?_, ?_, ?_⟩
  · intro m hm hlt
    obtain rfl : md = Option.some m := hm
    simp only [set_expr_to_plan, query_depth_guard, if_pos hlt]
  · intro m hm hle
    obtain rfl : md = Option.some m := hm
    simp only [set_expr_to_plan, query_depth_guard,
      if_neg (Nat.not_lt.mpr hle)]
  · intro hm
    obtain rfl : md = Option.none := hm
    simp only [set_expr_to_plan, query_depth_guard]

/-- Witness for C7: with counter at 5 and ceiling 3 the query path fails
with the recursion-limit error; with ceiling 9 it recurses with the counter
incremented to 6. -/
theorem c7_witness :
    ((Option.some 3 : Option Nat) = Option.some 3 ∧ 3 < 5 + 1 ∧
      set_expr_to_plan testCtx
        (SetExpr.query (SetExpr.select 2 Option.none) Option.none)
        { depth := 5, max_depth := Option.some 3 } =
        Except.error DataFusionError.recursionLimit) ∧
    ((Option.some 9 : Option Nat) = Option.some 9 ∧ 5 + 1 ≤ 9 ∧
      set_expr_to_plan testCtx
        (SetExpr.query (SetExpr.select 2 Option.none) Option.none)
        { depth := 5, max_depth := Option.some 9 } =
        set_expr_to_plan testCtx (SetExpr.select 2 Option.none)
          { depth := 6, max_depth := Option.some 9 }) :=
  ⟨⟨rfl, by decide,
      (c7_recursion_depth_guard testCtx (SetExpr.select 2 Option.none)
        Option.none { depth := 5, max_depth := Option.some 3 }).1 3 rfl
        (by decide)⟩,
    ⟨rfl, by decide,
      (c7_recursion_depth_guard testCtx (SetExpr.select 2 Option.none)
        Option.none { depth := 5, max_depth := Option.some 9 }).2.1 9 rfl
        (by decide)⟩⟩

lemma byteLen_nil : byteLen [] = 0 := rfl

lemma byteLen_cons (c : Nat) (t : List Nat) :
    byteLen (c :: t) = utf8CharLen c + byteLen t := by
  simp [byteLen]

/-- An ASCII-only string's UTF-8 byte length equals its code-point count. -/
lemma byteLen_of_ascii (s : List Nat) (h : strIsAscii s = true) :
    byteLen s = s.length := by
  induction s with
  | nil => rfl
  | cons c t ih =>
    rw [strIsAscii, List.all_cons, Bool.and_eq_true] at h
    obtain ⟨hc, ht⟩ := h
    have hc' : c < 128 := by simpa using hc
    have h1 : utf8CharLen c = 1 := by simp [utf8CharLen, hc']
    rw [byteLen_cons, h1, ih ht, List.length_cons, Nat.add_comm]

/-- Reading a list through `getD` over its index range is the same as
mapping over the list. -/
lemma map_range_getD {α β : Type} (l : List α) (d : α) (f : α → β) :
    (List.range l.length).map (fun i => f (l.getD i d)) = l.map f := by
  induction l with
  | nil => rfl
  | cons a t ih =>
    rw [List.length_cons, List.range_succ_eq_map, List.map_cons, List.map_map]
    have hcomp : ((fun i => f ((a :: t).getD i d)) ∘ Nat.succ) =
        fun i => f (t.getD i d) := by
      funext i
      rfl
    rw [hcomp, ih]
    rfl

lemma getD_of_lt {α : Type} (l : List α) (d : α) (i : Nat)
    (h : i < l.length) : l.getD i d = l.get ⟨i, h⟩ := by
  simp [List.getD_eq_getElem?_getD, List.getElem?_eq_getElem h]

/-- In an array with zero null count, every slot holds a value. -/
lemma null_count_zero_isSome (a : StringArray) (h : a.null_count = 0)
    (i : Nat) (hi : i < a.data.length) :
    (a.data.getD i Option.none).isSome = true := by
  rw [StringArray.null_count, List.length_eq_zero] at h
  have hmem : a.data.getD i Option.none ∈ a.data := by
    rw [getD_of_lt a.data Option.none i hi]
    exact List.get_mem a.data i hi
  by_contra hno
  have : a.data.getD i Option.none ∈ a.data.filter (fun o => o.isNone) := by
    refine List.mem_filter.mpr ⟨hmem, ?_⟩
    cases hx : a.data.getD i Option.none with
    | none => rfl
    | some s => rw [hx] at hno; simp at hno
  rw [h] at this
  simp at this

/-- Reading an array's slots through `getD` over its index range is the same
as mapping over its data. -/
lemma map_range_elem {β : Type} (a : StringArray)
    (g : Option (List Nat) → β) :
    (List.range a.len).map (fun i => g (a.data.getD i Option.none)) =
      a.data.map g :=
  map_range_getD a.data Option.none g

lemma all_ascii_elem (a : StringArray) (hA : a.is_ascii = true)
    (o : Option (List Nat)) (ho : o ∈ a.data) :
    strIsAscii (o.getD []) = true := by
  unfold StringArray.is_ascii at hA
  exact List.all_eq_true.mp hA o ho

/-- Null-free, array-wide ASCII branch: byte lengths equal char counts. -/
lemma branchA_values (a : StringArray) (hA : a.is_ascii = true) :
    (List.range a.len).map (fun i => byteLen (a.value i)) =
      a.data.map (fun o => (o.getD []).length) := by
  have h1 : (List.range a.len).map (fun i => byteLen (a.value i)) =
      a.data.map (fun o => byteLen (o.getD [])) :=
    map_range_elem a (fun o => byteLen (o.getD []))
  rw [h1]
  refine List.map_congr_left ?_
  intro o ho
  exact byteLen_of_ascii _ (all_ascii_elem a hA o ho)

/-- Null-free, per-element branch: each element is measured correctly. -/
lemma branchB_values (a : StringArray) :
    (List.range a.len).map (fun i =>
      let value := a.value i
      if strIsAscii value then byteLen value else value.length) =
      a.data.map (fun o => (o.getD []).length) := by
  have h1 : (List.range a.len).map (fun i =>
      let value := a.value i
      if strIsAscii value then byteLen value else value.length) =
      a.data.map (fun o =>
        if strIsAscii (o.getD []) then byteLen (o.getD [])
        else (o.getD []).length) :=
    map_range_elem a (fun o =>
      if strIsAscii (o.getD []) then byteLen (o.getD [])
      else (o.getD []).length)
  rw [h1]
  refine List.map_congr_left ?_
  intro o _
  by_cases hs : strIsAscii (o.getD []) = true
  · simp [hs, byteLen_of_ascii _ hs]
  · simp [hs]

/-- Nullable, array-wide ASCII branch. -/
lemma branchC_values (a : StringArray) (hA : a.is_ascii = true) :
    (List.range a.len).map (fun i =>
      if a.is_null i then 0 else byteLen (a.value i)) =
      a.data.map (fun o => (o.getD []).length) := by
  have h1 : (List.range a.len).map (fun i =>
      if a.is_null i then 0 else byteLen (a.value i)) =
      a.data.map (fun o =>
        if o.isNone then 0 else byteLen (o.getD [])) :=
    map_range_elem a (fun o => if o.isNone then 0 else byteLen (o.getD []))
  rw [h1]
  refine List.map_congr_left ?_
  intro o ho
  cases o with
  | none => rfl
  | some s =>
      have hs : strIsAscii s = true := by
        simpa using all_ascii_elem a hA (Option.some s) ho
      simp [byteLen_of_ascii s hs]

/-- Nullable, per-element branch. -/
lemma branchD_values (a : StringArray) :
    (List.range a.len).map (fun i =>
      if a.is_null i then 0
      else
        let value := a.value i
        if strIsAscii value then byteLen value else value.length) =
      a.data.map (fun o => (o.getD []).length) := by
  have h1 : (List.range a.len).map (fun i =>
      if a.is_null i then 0
      else
        let value := a.value i
        if strIsAscii value then byteLen value else value.length) =
      a.data.map (fun o =>
        if o.isNone then 0
        else if strIsAscii (o.getD []) then byteLen (o.getD [])
        else (o.getD []).length) :=
    map_range_elem a (fun o =>
      if o.isNone then 0
      else if strIsAscii (o.getD []) then byteLen (o.getD [])
      else (o.getD []).length)
  rw [h1]
  refine List.map_congr_left ?_
  intro o _
  cases o with
  | none => rfl
  | some s =>
      by_cases hs : strIsAscii s = true
      · simp [hs, byteLen_of_ascii s hs]
      · simp [hs]

/-- The kernel agrees with the naive character-count specification on every
input array: the ASCII fast paths change nothing observable. -/
lemma character_length_general_eq_spec (a : StringArray) :
    character_length_general a = character_length_spec a := by
  have hbody : character_length_general a =
      (if a.null_count == 0 then
        if a.is_ascii then
          { values := (List.range a.len).map (fun i => byteLen (a.value i)),
            nulls := Option.none }
        else
          { values := (List.range a.len).map (fun i =>
              let value := a.value i
              if strIsAscii value then byteLen value else value.length),
            nulls := Option.none }
      else if a.is_ascii then
        { values := (List.range a.len).map (fun i =>
            if a.is_null i then 0 else byteLen (a.value i)),
          nulls := a.nulls }
      else
        { values := (List.range a.len).map (fun i =>
            if a.is_null i then 0
            else
              let value := a.value i
              if strIsAscii value then byteLen value else value.length),
          nulls := a.nulls }) := rfl
  have hspec : character_length_spec a =
      { values := a.data.map (fun o => (o.getD []).length),
        nulls := a.nulls } := rfl
  rw [hbody, hspec]
  by_cases hnc : (a.null_count == 0) = true
  · have hnulls : a.nulls = Option.none := by
      unfold StringArray.nulls
      rw [if_pos hnc]
    rw [if_pos hnc]
    by_cases hA : a.is_ascii = true
    · rw [if_pos hA, branchA_values a hA, hnulls]
    · rw [if_neg hA, branchB_values a, hnulls]
  · rw [if_neg hnc]
    by_cases hA : a.is_ascii = true
    · rw [if_pos hA, branchC_values a hA]
    · rw [if_neg hA, branchD_values a]

lemma spec_len (a : StringArray) : (character_length_spec a).len = a.len := by
  simp [character_length_spec, PrimitiveArray.len, StringArray.len]

lemma spec_is_null (a : StringArray) (i : Nat) (hi : i < a.len) :
    (character_length_spec a).is_null i = a.is_null i := by
  unfold character_length_spec PrimitiveArray.is_null StringArray.is_null
    StringArray.nulls
  by_cases hnc : (a.null_count == 0) = true
  · rw [if_pos hnc]
    have hsome := null_count_zero_isSome a (by simpa using hnc) i hi
    cases hg : a.data.getD i Option.none with
    | none => rw [hg] at hsome; simp at hsome
    | some s => rfl
  · rw [if_neg hnc]
    have hmap : (a.data.map (fun o => o.isSome)).getD i true =
        (a.data.getD i Option.none).isSome := by
      rw [getD_of_lt _ _ i (by simpa using hi),
        getD_of_lt a.data Option.none i hi]
      simp [List.get_eq_getElem, List.getElem_map]
    show (!((a.data.map (fun o => o.isSome)).getD i true)) =
      (a.data.getD i Option.none).isNone
    rw [hmap]
    cases a.data.getD i Option.none <;> rfl

lemma spec_value (a : StringArray) (i : Nat) (hi : i < a.len) :
    (character_length_spec a).value i = (a.value i).length := by
  unfold character_length_spec PrimitiveArray.value StringArray.value
  have h1 : (a.data.map (fun o => (o.getD []).length)).getD i 0 =
      (fun o : Option (List Nat) => (o.getD []).length)
        (a.data.getD i Option.none) := by
    rw [getD_of_lt _ _ i (by simpa using hi),
      getD_of_lt a.data Option.none i hi]
    simp [List.get_eq_getElem, List.getElem_map]
  exact h1

/-- C9: the optimized ASCII fast path of `character_length_general` is
equivalent to the naive definition — an ASCII-only string's UTF-8 byte
length equals its code-point count, and all four branches compute, for each
non-null element, exactly its number of UTF-8 code points. -/
theorem c9_ascii_fast_path_equiv :
    (∀ s : List Nat, strIsAscii s = true → byteLen s = s.length) ∧
    (∀ a : StringArray, character_length_general a = character_length_spec a) :=
  ⟨byteLen_of_ascii, character_length_general_eq_spec⟩

/-- Witness for C9: the ASCII string `chars` has byte length 5 = its char
count, and the kernel equals the naive definition on a mixed nullable array
containing `josé`. -/
theorem c9_witness :
    strIsAscii [99, 104, 97, 114, 115] = true ∧
    byteLen [99, 104, 97, 114, 115] = 5 ∧
    character_length_general
      { data := [Option.some [106, 111, 115, 233], Option.none] } =
      character_length_spec
        { data := [Option.some [106, 111, 115, 233], Option.none] } :=
  ⟨rfl, c9_ascii_fast_path_equiv.1 [99, 104, 97, 114, 115] rfl,
    c9_ascii_fast_path_equiv.2
      { data := [Option.some [106, 111, 115, 233], Option.none] }⟩

/-- A concrete nullable array fixture: `hi`, null, `é`. -/
def sampleArr : StringArray :=
  { data := [Option.some [104, 105], Option.none, Option.some [233]] }

/-- C10: `character_length_general` preserves array shape and nullability:
the output has the input's length, an output slot is null exactly when the
input slot is, and every non-null output element is the character count of
the corresponding input element. -/
theorem c10_shape_preservation (a : StringArray) (i : Nat) (hi : i < a.len) :
    (character_length_general a).len = a.len ∧
    (character_length_general a).is_null i = a.is_null i ∧
    (a.is_null i = false →
      (character_length_general a).value i = (a.value i).length) := by
  rw [character_length_general_eq_spec]
  exact ⟨spec_len a, spec_is_null a i hi, fun _ => spec_value a i hi⟩

/-- Witness for C10 on a concrete nullable array at index 0. -/
theorem c10_witness :
    (0 : Nat) < sampleArr.len ∧ sampleArr.is_null 0 = false ∧
    (character_length_general sampleArr).len = sampleArr.len ∧
    (character_length_general sampleArr).is_null 0 = sampleArr.is_null 0 ∧
    (character_length_general sampleArr).value 0 =
      (sampleArr.value 0).length :=
  ⟨by decide, rfl,
    (c10_shape_preservation sampleArr 0 (by decide)).1,
    (c10_shape_preservation sampleArr 0 (by decide)).2.1,
    (c10_shape_preservation sampleArr 0 (by decide)).2.2 rfl⟩
